import Mathlib

/-!
# Verification of the `poll` package (jaracil/poll)

Shallow embedding of the Go package `poll` (files `poll.go` and the
select-backend file), together with proofs about the embedded operations.

Modelling conventions:

* Go `time.Time` is modelled as `Int` (nanoseconds); the zero `time.Time`
  is the integer `0` (`timeIsZero`), `a.After(b)` is `b < a` (`timeAfter`),
  and `a.Sub(b)` is `a - b`.
* A `*time.Timer` is modelled as `GoTimer`: an `armed` flag plus the
  absolute instant `fireAt` it is scheduled for.  `Stop` clears `armed`,
  `AfterFunc(d, ...)` / `Reset(d)` arm it at `now + d`.  A direction holds
  at most one timer (`Option GoTimer`), exactly as the single
  `timer *time.Timer` field of `fdCtl` in the source.
* The results of the raw non-blocking `read(2)`/`write(2)` syscalls are an
  oracle: a list of `SysResult`, one entry consumed per syscall actually
  issued by the retry loop.
* Concurrency: the retry loop `sysrw` holds the direction lock except
  while parked in `cond.Wait()`.  The values of the `closed`/`timeout`
  flags observed at the top of the loop are therefore the flags on entry,
  and, after each wake-up, the (possibly concurrently updated) flags
  recorded in a `Wake` trace entry.  A trace that runs out (no more
  syscall results / wake-ups) models an execution that is still blocked:
  the embedding returns `none`.
* Go errors are the inductive `Err`.  `ErrClosed`/`ErrTimeout` are the
  package's sentinel error values (declared in the repository's error
  glue, referenced by `poll.go`); `Err.eof`/`Err.unexpectedEOF` are
  `io.EOF`/`io.ErrUnexpectedEOF`; `Err.sys e` is a propagated syscall
  error `e`.
-/

/-- Errno-style error of a raw syscall.  `eagain` is `syscall.EAGAIN`
(would-block); every other errno is `other c`. -/
inductive SysErr where
  | eagain
  | other (code : Nat)
deriving DecidableEq, Repr

/-- Result of one raw non-blocking `read(2)`/`write(2)`: either `n` bytes
transferred with a nil error, or an errno. -/
inductive SysResult where
  | ok (n : Nat)
  | err (e : SysErr)
deriving DecidableEq, Repr

/-- The `error` values a `poll.File` operation can return. -/
inductive Err where
  | closed
  | timeout
  | eof
  | unexpectedEOF
  | sys (e : SysErr)
deriving DecidableEq, Repr

/-- Flag values (`f.closed`, `fdc.timeout`) observed when the direction
lock is re-acquired after a `cond.Wait()`; they may have been changed
concurrently by `Close`, `setDeadline` or `timerEvent` while the loop
was parked. -/
structure Wake where
  closed : Bool
  timeout : Bool
deriving DecidableEq, Repr

/-- The retry loop of `File.sysrw` (poll.go lines 149-175), instrumented:
the second component logs the `(closed, timeout)` flag pair at the moment
each raw syscall is issued.

Loop body, mirroring the source: under the direction lock, if `closed`
return `(0, ErrClosed)`; else if `timeout` return `(0, ErrTimeout)`; else
issue the syscall (consuming one `SysResult`).  A non-`EAGAIN` errno is
returned with `n = 0`; `EAGAIN` makes the loop `startTrack`, park in
`cond.Wait()` (consuming one `Wake`, whose flags are the flags seen after
re-acquiring the lock) and continue; a successful transfer of `0` bytes
on a non-empty buffer returns `errEOF` (`io.EOF` for reads,
`io.ErrUnexpectedEOF` for writes); any other success returns `(n, nil)`. -/
def sysrwAux (write : Bool) (plen : Nat) (closed timeout : Bool)
    (sys : List SysResult) (wakes : List Wake) :
    Option (Nat × Option Err) × List (Bool × Bool) :=
  if closed then (some (0, some Err.closed), [])
  else if timeout then (some (0, some Err.timeout), [])
  else
    match sys, wakes with
    | [], _ => (none, [])
    | SysResult.err e :: sysRest, wakes =>
      if e = SysErr.eagain then
        -- startTrack(fd, write); cond.Wait(); (stopTrack if flags set); continue
        match wakes with
        | [] => (none, [(closed, timeout)])
        | w :: wrest =>
          let r := sysrwAux write plen w.closed w.timeout sysRest wrest
          (r.1, (closed, timeout) :: r.2)
      else (some (0, some (Err.sys e)), [(closed, timeout)])
    | SysResult.ok n :: _, _ =>
      if n = 0 ∧ plen ≠ 0 then
        (some (0, some (if write then Err.unexpectedEOF else Err.eof)),
          [(closed, timeout)])
      else (some (n, none), [(closed, timeout)])

/-- Result of `File.sysrw` on a buffer of length `plen`:
`some (n, err)` once the loop returns, `none` while the modelled trace
leaves it blocked. -/
def sysrw (write : Bool) (plen : Nat) (closed timeout : Bool)
    (sys : List SysResult) (wakes : List Wake) : Option (Nat × Option Err) :=
  (sysrwAux write plen closed timeout sys wakes).1

/-- The `(closed, timeout)` flag pairs observed at each point where
`File.sysrw` issues the raw syscall. -/
def sysrwSyscallFlags (write : Bool) (plen : Nat) (closed timeout : Bool)
    (sys : List SysResult) (wakes : List Wake) : List (Bool × Bool) :=
  (sysrwAux write plen closed timeout sys wakes).2

/-- Environment of one `f.sysrw(true, p[n:])` call made by `File.Write`:
the flag values at its entry and its syscall/wake-up traces. -/
structure CallEnv where
  closed : Bool
  timeout : Bool
  sys : List SysResult
  wakes : List Wake
deriving Repr

/-- The loop of `File.Write` (poll.go lines 116-128): while `n != len(p)`,
call `sysrw(true, p[n:])`, accumulate `n += nn`, break with the error if
one occurred.  One `CallEnv` is consumed per `sysrw` call; `none` models
an execution still blocked inside a `sysrw` call (or one needing more
calls than the trace provides). -/
def writeLoop (plen n : Nat) (envs : List CallEnv) : Option (Nat × Option Err) :=
  if n = plen then some (n, none)
  else
    match envs with
    | [] => none
    | env :: rest =>
      match sysrw true (plen - n) env.closed env.timeout env.sys env.wakes with
      | none => none
      | some (nn, some e) => some (n + nn, some e)
      | some (nn, none) => writeLoop plen (n + nn) rest

/-- `File.Write` on a buffer of length `plen`, starting at `n = 0`. -/
def writeOp (plen : Nat) (envs : List CallEnv) : Option (Nat × Option Err) :=
  writeLoop plen 0 envs

/-- `time.Time.IsZero`: the zero `time.Time` is modelled as `0`. -/
def timeIsZero (t : Int) : Bool := t == 0

/-- `a.After(b)`: `a` is strictly later than `b`. -/
def timeAfter (a b : Int) : Bool := decide (b < a)

/-- A `*time.Timer`: `armed` is whether a firing is still pending,
`fireAt` the absolute instant it was last scheduled for. -/
structure GoTimer where
  armed : Bool
  fireAt : Int
deriving DecidableEq, Repr

/-- `timer.Stop()`: a nil timer stays nil, otherwise the pending firing
is cancelled. -/
def stopTimer : Option GoTimer → Option GoTimer
  | none => none
  | some tm => some { tm with armed := false }

/-- Whether the direction has a live (armed) timer. -/
def timerLive : Option GoTimer → Bool
  | none => false
  | some tm => tm.armed

/-- The deadline/timer fields of `fdCtl` (poll.go lines 26-32).  The lock
and condition variable are represented by the trace discipline of
`sysrw`; `timer` is the single `*time.Timer` field, so a direction can
never hold two timers. -/
structure FdCtl where
  deadline : Int
  timeout : Bool
  timer : Option GoTimer
deriving DecidableEq, Repr

/-- The state of a `poll.File` (poll.go lines 42-50): the monotonic
`closed` flag and one `fdCtl` per direction. -/
structure PFile where
  closed : Bool
  rctl : FdCtl
  wctl : FdCtl
deriving DecidableEq, Repr

/-- The `fdCtl` of a direction: `w` for writes, `r` for reads. -/
def ctl (f : PFile) (write : Bool) : FdCtl :=
  if write then f.wctl else f.rctl

/-- `File.Read` in a sequential execution: `sysrw(false, p)` under the
read lock, with the flag values taken from the state `f` (no concurrent
mutation while it runs). -/
def fileRead (f : PFile) (plen : Nat) (sys : List SysResult)
    (wakes : List Wake) : Option (Nat × Option Err) :=
  sysrw false plen f.closed f.rctl.timeout sys wakes

/-- `File.Write` in a sequential execution: the write loop with the flag
values of every inner `sysrw` call taken from the state `f`; one
`(sys, wakes)` trace pair per inner call. -/
def seqWrite (f : PFile) (plen : Nat)
    (calls : List (List SysResult × List Wake)) : Option (Nat × Option Err) :=
  writeLoop plen 0 (calls.map fun c => ⟨f.closed, f.wctl.timeout, c.1, c.2⟩)

/-- `File.Lock` (poll.go lines 262-271): takes both direction locks and
fails with `ErrClosed` on a closed File. -/
def lockOp (f : PFile) : Option Err :=
  if f.closed then some Err.closed else none

/-- `File.Close` (poll.go lines 180-203): `Lock()` fails with `ErrClosed`
if already closed; otherwise set `closed`, unregister, stop both
directions' timers, broadcast both condition variables, and return the
result `closeRes` of the close callback / `syscall.Close`. -/
def closeOp (f : PFile) (closeRes : Option Err) : Option Err × PFile :=
  if f.closed then (some Err.closed, f)
  else
    (closeRes,
      { f with
          closed := true,
          rctl := { f.rctl with timer := stopTimer f.rctl.timer },
          wctl := { f.wctl with timer := stopTimer f.wctl.timer } })

/-- The body of `File.setDeadline` on one direction's `fdCtl` (poll.go
lines 239-254), reached only when the File is not closed: store the
deadline, clear `timeout`; a zero deadline stops any pending timer, a
non-zero one schedules / `Stop()`s-and-`Reset()`s the single timer to
fire after `d = t - now`, i.e. at instant `now + d`. -/
def setDeadlineCtl (fdc : FdCtl) (t now : Int) : FdCtl :=
  let fdc := { fdc with deadline := t, timeout := false }
  if timeIsZero t then { fdc with timer := stopTimer fdc.timer }
  else
    let d := t - now
    match fdc.timer with
    | none => { fdc with timer := some ⟨true, now + d⟩ }
    | some _ => { fdc with timer := some ⟨true, now + d⟩ }

/-- `File.setDeadline` (poll.go lines 223-257): under the direction lock,
fail with `ErrClosed` on a closed File, otherwise update that
direction's `fdCtl` via `setDeadlineCtl`. -/
def setDeadlineOp (f : PFile) (write : Bool) (t now : Int) :
    Option Err × PFile :=
  if f.closed then (some Err.closed, f)
  else if write then (none, { f with wctl := setDeadlineCtl f.wctl t now })
  else (none, { f with rctl := setDeadlineCtl f.rctl t now })

/-- `File.SetDeadline` (poll.go lines 206-211): `SetReadDeadline` then,
if it succeeded, `SetWriteDeadline`. -/
def setDeadlineBothOp (f : PFile) (t now : Int) : Option Err × PFile :=
  match setDeadlineOp f false t now with
  | (some e, f') => (some e, f')
  | (none, f') => setDeadlineOp f' true t now

/-- `File.timerEvent` (poll.go lines 279-296): under the direction lock,
if the File is not closed, the direction not already timed out, and the
stored deadline non-zero and not after `now`, set `timeout` and
broadcast (second component `true`); otherwise the firing is stale and
nothing changes. -/
def timerEvent (f : PFile) (write : Bool) (now : Int) : PFile × Bool :=
  let fdc := ctl f write
  if !f.closed && !fdc.timeout &&
      !timeIsZero fdc.deadline && !timeAfter fdc.deadline now then
    let fdc' := { fdc with timeout := true }
    (if write then { f with wctl := fdc' } else { f with rctl := fdc' }, true)
  else (f, false)

/-- `startTrack` of the select backend (scan strategy): record `last`
(whether `fd` was already in the direction's interest set), insert `fd`,
and call `wakeup()` — write the self-pipe byte — iff `!last`.  Returns
the new `(fdTrR, fdTrW)` sets and whether `wakeup()` was called. -/
def startTrack (trR trW : Finset Int) (fd : Int) (write : Bool) :
    (Finset Int × Finset Int) × Bool :=
  if write then
    let last := decide (fd ∈ trW)
    ((trR, insert fd trW), !last)
  else
    let last := decide (fd ∈ trR)
    ((insert fd trR, trW), !last)

/-- `FD_BITS = unsafe.Sizeof(0) * 8` on a 64-bit platform. -/
def FD_BITS : Nat := 64

/-- `FD_SETSIZE` of the select backend. -/
def FD_SETSIZE : Nat := 1024

/-- Length of the `bits` array of `FdSet`: `FD_SETSIZE / FD_BITS = 16`. -/
def fdSetWords : Nat := FD_SETSIZE / FD_BITS

/-- Go integer division truncates toward zero (`Int.tdiv`), unlike
Euclidean division. -/
def goDiv (a b : Int) : Int := Int.tdiv a b

/-- The array index `fd / FD_BITS` computed (without any bounds check) by
`FdSet.Set`, `FdSet.UnSet` and `FdSet.IsSet`. -/
def fdWordIndex (fd : Int) : Int := goDiv fd (Int.ofNat FD_BITS)

/-- `uint(fd) % uint(FD_BITS)`: conversion to `uint` is reduction mod
`2^64`, then the bit position inside the word. -/
def fdBitShift (fd : Int) : Nat := ((fd % (2 ^ 64 : Int)).toNat) % FD_BITS

/-- The access `fds.bits[fd/FD_BITS]` stays inside the 16-word array
(does not panic). -/
def fdAccessInBounds (fd : Int) : Prop :=
  0 ≤ fdWordIndex fd ∧ fdWordIndex fd < (fdSetWords : Int)

instance (fd : Int) : Decidable (fdAccessInBounds fd) := by
  unfold fdAccessInBounds; infer_instance

/-! ## Unfolding lemmas -/

theorem sysrwAux_closed (write : Bool) (plen : Nat) (timeout : Bool)
    (sys : List SysResult) (wakes : List Wake) :
    sysrwAux write plen true timeout sys wakes = (some (0, some Err.closed), []) := by
  unfold sysrwAux
  rfl

theorem sysrwAux_timedOut (write : Bool) (plen : Nat)
    (sys : List SysResult) (wakes : List Wake) :
    sysrwAux write plen false true sys wakes = (some (0, some Err.timeout), []) := by
  unfold sysrwAux
  rfl

theorem sysrwAux_noSys (write : Bool) (plen : Nat) (wakes : List Wake) :
    sysrwAux write plen false false [] wakes = (none, []) := rfl

theorem sysrwAux_ok (write : Bool) (plen n : Nat)
    (sysRest : List SysResult) (wakes : List Wake) :
    sysrwAux write plen false false (SysResult.ok n :: sysRest) wakes =
      (if n = 0 ∧ plen ≠ 0 then
        (some (0, some (if write then Err.unexpectedEOF else Err.eof)),
          [(false, false)])
       else (some (n, none), [(false, false)])) := rfl

theorem sysrwAux_errOther (write : Bool) (plen : Nat) (e : SysErr)
    (he : e ≠ SysErr.eagain) (sysRest : List SysResult) (wakes : List Wake) :
    sysrwAux write plen false false (SysResult.err e :: sysRest) wakes =
      (some (0, some (Err.sys e)), [(false, false)]) := by
  cases e with
  | eagain => exact absurd rfl he
  | other c => rfl

theorem sysrwAux_eagain_noWake (write : Bool) (plen : Nat)
    (sysRest : List SysResult) :
    sysrwAux write plen false false (SysResult.err SysErr.eagain :: sysRest) [] =
      (none, [(false, false)]) := rfl

theorem sysrwAux_eagain_wake (write : Bool) (plen : Nat)
    (sysRest : List SysResult) (w : Wake) (wrest : List Wake) :
    sysrwAux write plen false false (SysResult.err SysErr.eagain :: sysRest)
        (w :: wrest) =
      ((sysrwAux write plen w.closed w.timeout sysRest wrest).1,
        (false, false) :: (sysrwAux write plen w.closed w.timeout sysRest wrest).2) := rfl

theorem writeLoop_done (plen : Nat) (envs : List CallEnv) :
    writeLoop plen plen envs = some (plen, none) := by
  cases envs <;> simp [writeLoop]

theorem writeLoop_nil_ne (plen n : Nat) (hn : n ≠ plen) :
    writeLoop plen n [] = none := by
  simp [writeLoop, hn]

theorem writeLoop_cons_blocked (plen n : Nat) (env : CallEnv)
    (rest : List CallEnv) (hn : n ≠ plen)
    (hs : sysrw true (plen - n) env.closed env.timeout env.sys env.wakes = none) :
    writeLoop plen n (env :: rest) = none := by
  unfold writeLoop
  simp only [if_neg hn, hs]

theorem writeLoop_cons_err (plen n nn : Nat) (e : Err) (env : CallEnv)
    (rest : List CallEnv) (hn : n ≠ plen)
    (hs : sysrw true (plen - n) env.closed env.timeout env.sys env.wakes =
      some (nn, some e)) :
    writeLoop plen n (env :: rest) = some (n + nn, some e) := by
  unfold writeLoop
  simp only [if_neg hn, hs]

theorem writeLoop_cons_ok (plen n nn : Nat) (env : CallEnv)
    (rest : List CallEnv) (hn : n ≠ plen)
    (hs : sysrw true (plen - n) env.closed env.timeout env.sys env.wakes =
      some (nn, none)) :
    writeLoop plen n (env :: rest) = writeLoop plen (n + nn) rest := by
  conv_lhs => unfold writeLoop
  simp only [if_neg hn, hs]

/-! ## Core lemmas -/

/-- Every raw syscall issued by the retry loop is issued while both the
`closed` and `timeout` flags are `false`. -/
theorem sysrwAux_flags_false (write : Bool) (plen : Nat) :
    ∀ (sys : List SysResult) (closed timeout : Bool) (wakes : List Wake),
      ∀ pr ∈ (sysrwAux write plen closed timeout sys wakes).2,
        pr = (false, false) := by
  intro sys
  induction sys with
  | nil =>
    intro closed timeout wakes pr hpr
    cases closed with
    | true => rw [sysrwAux_closed] at hpr; simp at hpr
    | false =>
      cases timeout with
      | true => rw [sysrwAux_timedOut] at hpr; simp at hpr
      | false => rw [sysrwAux_noSys] at hpr; simp at hpr
  | cons s rest ih =>
    intro closed timeout wakes pr hpr
    cases closed with
    | true => rw [sysrwAux_closed] at hpr; simp at hpr
    | false =>
      cases timeout with
      | true => rw [sysrwAux_timedOut] at hpr; simp at hpr
      | false =>
        cases s with
        | ok n =>
          rw [sysrwAux_ok] at hpr
          by_cases hn : n = 0 ∧ plen ≠ 0 <;>
            simp [hn] at hpr <;> exact hpr
        | err e =>
          by_cases he : e = SysErr.eagain
          · subst he
            cases wakes with
            | nil =>
              rw [sysrwAux_eagain_noWake] at hpr
              simp at hpr
              exact hpr
            | cons w wrest =>
              rw [sysrwAux_eagain_wake] at hpr
              simp only [List.mem_cons] at hpr
              rcases hpr with h | h
              · exact h
              · exact ih w.closed w.timeout wrest pr h
          · rw [sysrwAux_errOther write plen e he] at hpr
            simp at hpr
            exact hpr

/-- If `Write`'s loop returns a nil error, the whole buffer was written:
the loop only exits without an error when `n = len(p)`. -/
theorem writeLoop_ok_full (plen : Nat) :
    ∀ (envs : List CallEnv) (n m : Nat),
      writeLoop plen n envs = some (m, none) → m = plen := by
  intro envs
  induction envs with
  | nil =>
    intro n m h
    by_cases hn : n = plen
    · subst hn
      rw [writeLoop_done] at h
      simp at h
      omega
    · rw [writeLoop_nil_ne plen n hn] at h
      exact absurd h (by simp)
  | cons env rest ih =>
    intro n m h
    by_cases hn : n = plen
    · subst hn
      rw [writeLoop_done] at h
      simp at h
      omega
    · cases hs : sysrw true (plen - n) env.closed env.timeout env.sys env.wakes with
      | none =>
        rw [writeLoop_cons_blocked plen n env rest hn hs] at h
        exact absurd h (by simp)
      | some r =>
        rcases r with ⟨nn, e?⟩
        cases e? with
        | some e =>
          rw [writeLoop_cons_err plen n nn e env rest hn hs] at h
          simp at h
        | none =>
          rw [writeLoop_cons_ok plen n nn env rest hn hs] at h
          exact ih (n + nn) m h

/-- If every `sysrw` call in the trace succeeds, writes at least one byte
per call and never more than asked for, and the trace provides at least
`plen - n` calls, the loop terminates having written the whole buffer. -/
theorem writeLoop_all_ok (plen : Nat) :
    ∀ (envs : List CallEnv) (n : Nat), n ≤ plen → plen - n ≤ envs.length →
      (∀ env ∈ envs, ∀ rem : Nat, 0 < rem →
        ∃ nn, sysrw true rem env.closed env.timeout env.sys env.wakes =
            some (nn, none) ∧ 1 ≤ nn ∧ nn ≤ rem) →
      writeLoop plen n envs = some (plen, none) := by
  intro envs
  induction envs with
  | nil =>
    intro n hle hlen _
    simp at hlen
    have : n = plen := by omega
    subst this
    exact writeLoop_done n []
  | cons env rest ih =>
    intro n hle hlen hall
    by_cases hn : n = plen
    · subst hn
      exact writeLoop_done n (env :: rest)
    · have hrem : 0 < plen - n := by omega
      obtain ⟨nn, hs, h1, h2⟩ := hall env (List.mem_cons_self env rest) (plen - n) hrem
      rw [writeLoop_cons_ok plen n nn env rest hn hs]
      have := ih (n + nn) (by omega) (by simp at hlen ⊢; omega)
        (fun e he rem hrem => hall e (List.mem_cons_of_mem env he) rem hrem)
      rw [this]

/-! ## Claim theorems -/

/-- **C2**: in the Read/Write retry loop, on every iteration — before the
first syscall attempt and again after every wake-up from the condition
variable — `closed` and then `timeout` are checked under the direction
lock: if closed the call returns `ErrClosed`, otherwise if timed out it
returns `ErrTimeout` (also when the flag was raised while the loop was
parked in `cond.Wait()`), and the non-blocking syscall is only ever
issued when both flags are false (the flag log of the loop contains only
`(false, false)`). -/
theorem claim_c2 (write : Bool) (plen : Nat) (closed timeout : Bool)
    (sys : List SysResult) (wakes : List Wake) :
    (closed = true →
      sysrw write plen closed timeout sys wakes = some (0, some Err.closed)) ∧
    (closed = false → timeout = true →
      sysrw write plen closed timeout sys wakes = some (0, some Err.timeout)) ∧
    (∀ sysRest w wrest, sys = SysResult.err SysErr.eagain :: sysRest →
      wakes = w :: wrest → w.closed = true →
      sysrw write plen false false sys wakes = some (0, some Err.closed)) ∧
    (∀ sysRest w wrest, sys = SysResult.err SysErr.eagain :: sysRest →
      wakes = w :: wrest → w.closed = false → w.timeout = true →
      sysrw write plen false false sys wakes = some (0, some Err.timeout)) ∧
    (∀ pr ∈ sysrwSyscallFlags write plen closed timeout sys wakes,
      pr = (false, false)) := by
  refine ⟨?_, ?_, ?_, ?_, ?_⟩
  · intro h
    subst h
    unfold sysrw
    rw [sysrwAux_closed]
  · intro h1 h2
    subst h1
    subst h2
    unfold sysrw
    rw [sysrwAux_timedOut]
  · intro sysRest w wrest hsys hwakes hw
    subst hsys
    subst hwakes
    unfold sysrw
    rw [sysrwAux_eagain_wake, hw, sysrwAux_closed]
  · intro sysRest w wrest hsys hwakes hw1 hw2
    subst hsys
    subst hwakes
    unfold sysrw
    rw [sysrwAux_eagain_wake, hw1, hw2, sysrwAux_timedOut]
  · exact sysrwAux_flags_false write plen sys closed timeout wakes

/-- Witness for C2 at concrete inputs: a closed File's loop returns
`ErrClosed`, a timed-out one `ErrTimeout`, and a wake-up that finds the
`closed` flag raised makes the loop return `ErrClosed` without another
syscall. -/
theorem claim_c2_witness :
    sysrw false 4 true false [] [] = some (0, some Err.closed) ∧
    sysrw false 4 false true [] [] = some (0, some Err.timeout) ∧
    sysrw false 4 false false [SysResult.err SysErr.eagain] [⟨true, false⟩] =
      some (0, some Err.closed) :=
  ⟨(claim_c2 false 4 true false [] []).1 rfl,
   (claim_c2 false 4 false true [] []).2.1 rfl rfl,
   (claim_c2 false 4 false false [SysResult.err SysErr.eagain]
      [⟨true, false⟩]).2.2.1 [] ⟨true, false⟩ [] rfl rfl rfl⟩

/-- **C3**: `Write(p)` returns `(len(p), nil)` only after the whole buffer
has been written cumulatively — (1) a nil-error return implies `n =
len(p)`; (2) when every underlying write succeeds with at least one byte
(at most the remaining bytes) and the trace provides enough calls,
`Write` returns `(len(p), nil)`, partial writes being retried
transparently; (3) if an underlying `sysrw` call fails, `Write` breaks
out of the loop and returns that error. -/
theorem claim_c3 :
    (∀ plen envs n, writeOp plen envs = some (n, none) → n = plen) ∧
    (∀ plen envs,
      (∀ env ∈ envs, ∀ rem : Nat, 0 < rem →
        ∃ nn, sysrw true rem env.closed env.timeout env.sys env.wakes =
            some (nn, none) ∧ 1 ≤ nn ∧ nn ≤ rem) →
      plen ≤ envs.length → writeOp plen envs = some (plen, none)) ∧
    (∀ plen n nn e env rest, n ≠ plen →
      sysrw true (plen - n) env.closed env.timeout env.sys env.wakes =
        some (nn, some e) →
      writeLoop plen n (env :: rest) = some (n + nn, some e)) := by
  refine ⟨?_, ?_, ?_⟩
  · intro plen envs n h
    exact writeLoop_ok_full plen envs 0 n h
  · intro plen envs hall hlen
    exact writeLoop_all_ok plen envs 0 (Nat.zero_le _) (by omega) hall
  · intro plen n nn e env rest hn hs
    exact writeLoop_cons_err plen n nn e env rest hn hs

/-- Witness for C3: a 2-byte buffer against a descriptor accepting one
byte per underlying write completes in two transparently retried calls. -/
theorem claim_c3_witness :
    writeOp 2 [⟨false, false, [SysResult.ok 1], []⟩,
               ⟨false, false, [SysResult.ok 1], []⟩] = some (2, none) := by
  refine claim_c3.2.1 2 _ ?_ (by simp)
  intro env henv rem hrem
  simp at henv
  subst henv
  refine ⟨1, ?_, le_refl 1, hrem⟩
  simp [sysrw, sysrwAux_ok]

/-- **C4**: a zero-length successful syscall result on a non-empty buffer
is treated as end-of-stream: `io.EOF` for Read, `io.ErrUnexpectedEOF`
for Write; on an empty buffer a zero-length result returns `(0, nil)`
instead. -/
theorem claim_c4 (write : Bool) (plen : Nat) (sysRest : List SysResult)
    (wakes : List Wake) :
    (plen ≠ 0 → sysrw write plen false false (SysResult.ok 0 :: sysRest) wakes =
      some (0, some (if write then Err.unexpectedEOF else Err.eof))) ∧
    (sysrw write 0 false false (SysResult.ok 0 :: sysRest) wakes =
      some (0, none)) := by
  constructor
  · intro h
    simp [sysrw, sysrwAux_ok, h]
  · simp [sysrw, sysrwAux_ok]

/-- Witness for C4: a 0-byte successful write on a 3-byte buffer returns
`UnexpectedEOF`. -/
theorem claim_c4_witness :
    sysrw true 3 false false [SysResult.ok 0] [] =
      some (0, some (if true then Err.unexpectedEOF else Err.eof)) :=
  (claim_c4 true 3 [] []).1 (by decide)

/-! ## Closed-file behaviour -/

theorem sysrw_closed (write : Bool) (plen : Nat) (timeout : Bool)
    (sys : List SysResult) (wakes : List Wake) :
    sysrw write plen true timeout sys wakes = some (0, some Err.closed) := by
  unfold sysrw
  rw [sysrwAux_closed]

theorem fileRead_closed (f : PFile) (hf : f.closed = true) (plen : Nat)
    (sys : List SysResult) (wakes : List Wake) :
    fileRead f plen sys wakes = some (0, some Err.closed) := by
  unfold fileRead
  rw [hf]
  exact sysrw_closed false plen f.rctl.timeout sys wakes

theorem seqWrite_closed (f : PFile) (hf : f.closed = true) (plen : Nat)
    (hp : plen ≠ 0) (c : List SysResult × List Wake)
    (cs : List (List SysResult × List Wake)) :
    seqWrite f plen (c :: cs) = some (0, some Err.closed) := by
  unfold seqWrite
  simp only [List.map_cons]
  have hs : sysrw true (plen - 0) f.closed f.wctl.timeout c.1 c.2 =
      some (0, some Err.closed) := by
    rw [hf]
    exact sysrw_closed true (plen - 0) f.wctl.timeout c.1 c.2
  have := writeLoop_cons_err plen 0 0 Err.closed
    ⟨f.closed, f.wctl.timeout, c.1, c.2⟩
    (cs.map fun c => ⟨f.closed, f.wctl.timeout, c.1, c.2⟩) (Ne.symm hp) hs
  simpa using this

theorem seqWrite_zeroLen (f : PFile)
    (calls : List (List SysResult × List Wake)) :
    seqWrite f 0 calls = some (0, none) :=
  writeLoop_done 0 _

theorem writeOp_zeroLen (envs : List CallEnv) :
    writeOp 0 envs = some (0, none) :=
  writeLoop_done 0 envs

theorem closeOp_closed (f : PFile) (hf : f.closed = true) (r : Option Err) :
    closeOp f r = (some Err.closed, f) := by
  simp [closeOp, hf]

theorem setDeadlineOp_closed (f : PFile) (hf : f.closed = true)
    (w : Bool) (t now : Int) :
    setDeadlineOp f w t now = (some Err.closed, f) := by
  simp [setDeadlineOp, hf]

theorem setDeadlineBothOp_closed (f : PFile) (hf : f.closed = true)
    (t now : Int) :
    setDeadlineBothOp f t now = (some Err.closed, f) := by
  simp [setDeadlineBothOp, setDeadlineOp, hf]

theorem lockOp_closed (f : PFile) (hf : f.closed = true) :
    lockOp f = some Err.closed := by
  simp [lockOp, hf]

/-- A freshly created File: open, no deadlines, no timers. -/
def file0 : PFile := ⟨false, ⟨0, false, none⟩, ⟨0, false, none⟩⟩

/-- An already-closed File with quiescent directions. -/
def closedFile0 : PFile := ⟨true, ⟨0, false, none⟩, ⟨0, false, none⟩⟩

/-- **C1 (amended)**: after `Close` has returned on a not-yet-closed File
(which can succeed at most once — a second `Close` returns `ErrClosed`),
every subsequent `Read`, `Close`, `SetDeadline`/`SetReadDeadline`/
`SetWriteDeadline` and `Lock` call returns `ErrClosed` for every
argument, and so does `Write` for every non-empty buffer; `Write` with a
zero-length buffer, however, returns `(0, nil)` because its loop body
never runs.  (The original claim demanded `ErrClosed` for zero-length
`Write` as well; the counterexample refutes that.) -/
theorem claim_c1 (f : PFile) (r r' : Option Err) (hf : f.closed = false) :
    (closeOp f r).1 = r ∧
    (closeOp f r).2.closed = true ∧
    closeOp (closeOp f r).2 r' = (some Err.closed, (closeOp f r).2) ∧
    (∀ plen sys wakes,
      fileRead (closeOp f r).2 plen sys wakes = some (0, some Err.closed)) ∧
    (∀ plen c cs, plen ≠ 0 →
      seqWrite (closeOp f r).2 plen (c :: cs) = some (0, some Err.closed)) ∧
    (∀ calls, seqWrite (closeOp f r).2 0 calls = some (0, none)) ∧
    (∀ w t now,
      setDeadlineOp (closeOp f r).2 w t now = (some Err.closed, (closeOp f r).2)) ∧
    (∀ t now,
      setDeadlineBothOp (closeOp f r).2 t now = (some Err.closed, (closeOp f r).2)) ∧
    lockOp (closeOp f r).2 = some Err.closed := by
  have hcl : (closeOp f r).2.closed = true := by
    simp [closeOp, hf]
  refine ⟨by simp [closeOp, hf], hcl, closeOp_closed _ hcl r',
    fun plen sys wakes => fileRead_closed _ hcl plen sys wakes,
    fun plen c cs hp => seqWrite_closed _ hcl plen hp c cs,
    fun calls => seqWrite_zeroLen _ calls,
    fun w t now => setDeadlineOp_closed _ hcl w t now,
    fun t now => setDeadlineBothOp_closed _ hcl t now,
    lockOp_closed _ hcl⟩

/-- Witness for C1 at a concrete File. -/
theorem claim_c1_witness :
    (closeOp file0 none).2.closed = true ∧
    closeOp (closeOp file0 none).2 none =
      (some Err.closed, (closeOp file0 none).2) ∧
    fileRead (closeOp file0 none).2 3 [] [] = some (0, some Err.closed) ∧
    seqWrite (closeOp file0 none).2 3 [([], [])] = some (0, some Err.closed) ∧
    lockOp (closeOp file0 none).2 = some Err.closed := by
  have h := claim_c1 file0 none none rfl
  exact ⟨h.2.1, h.2.2.1, h.2.2.2.1 3 [] [],
    h.2.2.2.2.1 3 ([], []) [] (by decide), h.2.2.2.2.2.2.2.2⟩

/-- Counterexample to C1 as stated: on a closed File, `Write` with a
zero-length buffer returns `(0, nil)`, not `ErrClosed`. -/
theorem claim_c1_counterexample :
    (closeOp file0 none).2.closed = true ∧
    seqWrite (closeOp file0 none).2 0 [] = some (0, none) ∧
    seqWrite (closeOp file0 none).2 0 [] ≠ some (0, some Err.closed) := by
  refine ⟨by decide, by decide, by decide⟩

/-- **C9**: `Write` with a zero-length buffer on an already-closed File
returns `(0, nil)` — the loop body never executes, so the `closed` flag
is never consulted — whereas `Read` with a zero-length buffer on a
closed File returns `ErrClosed`. -/
theorem claim_c9 (f : PFile) (hf : f.closed = true) :
    (∀ calls, seqWrite f 0 calls = some (0, none)) ∧
    (∀ sys wakes, fileRead f 0 sys wakes = some (0, some Err.closed)) :=
  ⟨fun calls => seqWrite_zeroLen f calls,
   fun sys wakes => fileRead_closed f hf 0 sys wakes⟩

/-- Witness for C9 at a concrete closed File. -/
theorem claim_c9_witness :
    seqWrite closedFile0 0 [] = some (0, none) ∧
    fileRead closedFile0 0 [] [] = some (0, some Err.closed) :=
  ⟨(claim_c9 closedFile0 rfl).1 [], (claim_c9 closedFile0 rfl).2 [] []⟩

/-- **C7 (amended)**: `Write` with a zero-length buffer never blocks and
returns `(0, nil)` in every File state; `Read` with a zero-length buffer
returns `(0, nil)` without blocking provided the File is neither closed
nor timed out (the underlying read of an empty buffer reporting `0`
bytes); an empty request never triggers EOF/UnexpectedEOF detection.
(The original claim asserted `(0, nil)` for `Read` unconditionally; on a
closed File `Read` of an empty buffer returns `ErrClosed` — see the
counterexample.) -/
theorem claim_c7 :
    (∀ envs, writeOp 0 envs = some (0, none)) ∧
    (∀ f calls, seqWrite f 0 calls = some (0, none)) ∧
    (∀ write sysRest wakes,
      sysrw write 0 false false (SysResult.ok 0 :: sysRest) wakes =
        some (0, none)) := by
  refine ⟨fun envs => writeOp_zeroLen envs,
    fun f calls => seqWrite_zeroLen f calls,
    fun write sysRest wakes => ?_⟩
  simp [sysrw, sysrwAux_ok]

/-- Counterexample to C7 as stated: `Read` with a zero-length buffer on a
closed File returns `ErrClosed`, not `(0, nil)`. -/
theorem claim_c7_counterexample :
    fileRead closedFile0 0 [] [] = some (0, some Err.closed) ∧
    fileRead closedFile0 0 [] [] ≠ some (0, none) := by
  refine ⟨by decide, by decide⟩

/-! ## Deadlines and timers -/

theorem stopTimer_not_live (tm : Option GoTimer) :
    timerLive (stopTimer tm) = false := by
  cases tm <;> simp [stopTimer, timerLive]

theorem setDeadlineCtl_spec (fdc : FdCtl) (t now : Int) :
    (setDeadlineCtl fdc t now).deadline = t ∧
    (setDeadlineCtl fdc t now).timeout = false ∧
    (timeIsZero t = true →
      (setDeadlineCtl fdc t now).timer = stopTimer fdc.timer ∧
      timerLive (setDeadlineCtl fdc t now).timer = false) ∧
    (timeIsZero t = false →
      (setDeadlineCtl fdc t now).timer = some ⟨true, t⟩) := by
  unfold setDeadlineCtl
  by_cases hz : timeIsZero t = true
  · refine ⟨by simp [hz], by simp [hz], fun _ => ⟨by simp [hz], ?_⟩, by simp [hz]⟩
    simp only [hz, if_true]
    exact stopTimer_not_live fdc.timer
  · have hz' : timeIsZero t = false := by
      simpa using hz
    have harith : now + (t - now) = t := by omega
    refine ⟨?_, ?_, fun h => absurd h (by simp [hz']), fun _ => ?_⟩ <;>
      cases fdc.timer <;> simp [hz', harith]

/-- **C5**: `setDeadline(dir, t)` fails with `ErrClosed` and changes
nothing when the File is already closed; otherwise it returns nil,
stores `t` as the direction's deadline, clears `timedOut`, and — when
`t` is the zero value — stops any pending timer (leaving no live timer),
or — when `t` is non-zero — leaves the direction's single timer armed to
fire at `now + (t - now) = t`; the opposite direction and the `closed`
flag are untouched.  The direction holds one `Option GoTimer` slot,
mirroring the single `timer` field of `fdCtl`, so two live timers per
direction are impossible. -/
theorem claim_c5 (f : PFile) (w : Bool) (t now : Int) :
    (f.closed = true → setDeadlineOp f w t now = (some Err.closed, f)) ∧
    (f.closed = false →
      (setDeadlineOp f w t now).1 = none ∧
      (ctl (setDeadlineOp f w t now).2 w).deadline = t ∧
      (ctl (setDeadlineOp f w t now).2 w).timeout = false ∧
      (timeIsZero t = true →
        (ctl (setDeadlineOp f w t now).2 w).timer = stopTimer (ctl f w).timer ∧
        timerLive (ctl (setDeadlineOp f w t now).2 w).timer = false) ∧
      (timeIsZero t = false →
        (ctl (setDeadlineOp f w t now).2 w).timer = some ⟨true, t⟩) ∧
      ctl (setDeadlineOp f w t now).2 (!w) = ctl f (!w) ∧
      (setDeadlineOp f w t now).2.closed = f.closed) := by
  constructor
  · intro hf
    exact setDeadlineOp_closed f hf w t now
  · intro hf
    obtain ⟨h1, h2, h3, h4⟩ := setDeadlineCtl_spec (ctl f w) t now
    cases w <;>
      exact ⟨by simp [setDeadlineOp, hf],
        by simpa [setDeadlineOp, hf, ctl] using h1,
        by simpa [setDeadlineOp, hf, ctl] using h2,
        fun hz => by
          obtain ⟨ha, hb⟩ := h3 hz
          exact ⟨by simpa [setDeadlineOp, hf, ctl] using ha,
            by simpa [setDeadlineOp, hf, ctl] using hb⟩,
        fun hz => by simpa [setDeadlineOp, hf, ctl] using h4 hz,
        by simp [setDeadlineOp, hf, ctl],
        by simp [setDeadlineOp, hf]⟩

/-- Witness for C5: setting a write deadline of 5 at `now = 2` on a fresh
File succeeds, stores the deadline, and arms the one-shot timer at 5. -/
theorem claim_c5_witness :
    (setDeadlineOp file0 true 5 2).1 = none ∧
    (ctl (setDeadlineOp file0 true 5 2).2 true).deadline = 5 ∧
    (ctl (setDeadlineOp file0 true 5 2).2 true).timer = some ⟨true, 5⟩ := by
  have h := (claim_c5 file0 true 5 2).2 rfl
  exact ⟨h.1, h.2.1, h.2.2.2.2.1 (by decide)⟩

/-- **C6**: a timer firing sets `timedOut` and broadcasts (second
component `true`) iff the File is not closed, the direction is not
already timed out, and the stored deadline is non-zero and has passed
(is not after `now`); in every other case the firing is stale and the
state is unchanged.  When it does fire, only that direction's `timeout`
flag changes. -/
theorem claim_c6 (f : PFile) (w : Bool) (now : Int) :
    ((timerEvent f w now).2 = true ↔
      (f.closed = false ∧ (ctl f w).timeout = false ∧
        timeIsZero (ctl f w).deadline = false ∧
        timeAfter (ctl f w).deadline now = false)) ∧
    ((timerEvent f w now).2 = false → (timerEvent f w now).1 = f) ∧
    ((timerEvent f w now).2 = true →
      ctl (timerEvent f w now).1 w = { ctl f w with timeout := true } ∧
      ctl (timerEvent f w now).1 (!w) = ctl f (!w) ∧
      (timerEvent f w now).1.closed = f.closed) := by
  cases w
  · cases h1 : f.closed <;>
      cases h2 : f.rctl.timeout <;>
      cases h3 : timeIsZero f.rctl.deadline <;>
      cases h4 : timeAfter f.rctl.deadline now <;>
      simp [timerEvent, ctl, h1, h2, h3, h4]
  · cases h1 : f.closed <;>
      cases h2 : f.wctl.timeout <;>
      cases h3 : timeIsZero f.wctl.deadline <;>
      cases h4 : timeAfter f.wctl.deadline now <;>
      simp [timerEvent, ctl, h1, h2, h3, h4]

/-- Witness for C6: on a fresh File with a write deadline of 5 already
stored, a firing at `now = 6` sets the write direction's `timeout`. -/
theorem claim_c6_witness :
    (timerEvent ⟨false, ⟨0, false, none⟩, ⟨5, false, some ⟨true, 5⟩⟩⟩ true 6).2 =
      true ∧
    (ctl (timerEvent ⟨false, ⟨0, false, none⟩, ⟨5, false, some ⟨true, 5⟩⟩⟩
        true 6).1 true).timeout = true := by
  have h := claim_c6 ⟨false, ⟨0, false, none⟩, ⟨5, false, some ⟨true, 5⟩⟩⟩ true 6
  have h2 : (timerEvent ⟨false, ⟨0, false, none⟩, ⟨5, false, some ⟨true, 5⟩⟩⟩
      true 6).2 = true :=
    h.1.mpr ⟨rfl, by decide, by decide, by decide⟩
  exact ⟨h2, by rw [(h.2.2 h2).1]⟩

/-- **C8**: in the scan (select) backend, `startTrack(fd, dir)` always
inserts `fd` into the interest set of that direction (leaving the other
set unchanged), and writes the self-pipe wakeup byte iff `fd` was not
already present in that set. -/
theorem claim_c8 (trR trW : Finset Int) (fd : Int) (write : Bool) :
    (write = true →
      (startTrack trR trW fd write).1 = (trR, insert fd trW) ∧
      fd ∈ (startTrack trR trW fd write).1.2 ∧
      ((startTrack trR trW fd write).2 = true ↔ fd ∉ trW)) ∧
    (write = false →
      (startTrack trR trW fd write).1 = (insert fd trR, trW) ∧
      fd ∈ (startTrack trR trW fd write).1.1 ∧
      ((startTrack trR trW fd write).2 = true ↔ fd ∉ trR)) := by
  constructor <;> intro h <;> subst h <;>
    exact ⟨by simp [startTrack], by simp [startTrack], by simp [startTrack]⟩

/-- Witness for C8: tracking descriptor 3 for writing in an empty
interest set inserts it and pokes the self-pipe. -/
theorem claim_c8_witness :
    (3 : Int) ∈ (startTrack ∅ ∅ 3 true).1.2 ∧
    ((startTrack ∅ ∅ 3 true).2 = true ↔ (3 : Int) ∉ (∅ : Finset Int)) :=
  ⟨((claim_c8 ∅ ∅ 3 true).1 rfl).2.1, ((claim_c8 ∅ ∅ 3 true).1 rfl).2.2⟩

/-! ## FdSet bounds (select backend) -/

theorem fdWordIndex_ofNat (m : Nat) :
    fdWordIndex (Int.ofNat m) = Int.ofNat (m / 64) := rfl

theorem fdWordIndex_negSucc (m : Nat) :
    fdWordIndex (Int.negSucc m) = -Int.ofNat (m.succ / 64) := rfl

/-- **C10 (amended)**: the `FdSet` operations index `bits[fd/FD_BITS]`
with no bounds check.  On a 64-bit platform the access is out of range —
a runtime panic — exactly when `fd ≥ 1024` or `fd ≤ -64`; because Go's
integer division truncates toward zero, descriptors in `[-63, -1]` land
on word index `0` without a bounds violation, silently aliasing the bit
of descriptor `fd + 64` (the mask shift `uint(fd) % 64` is `64 + fd`).
Only descriptors in `[0, 1024)` are therefore supported meaningfully.
(The original claim asserted a panic for every `fd < 0`; `fd = -1` is a
counterexample.) -/
theorem claim_c10 (fd : Int) :
    (fdAccessInBounds fd ↔ (-64 < fd ∧ fd < 1024)) ∧
    (-64 < fd → fd < 0 →
      fdWordIndex fd = 0 ∧ (fdBitShift fd : Int) = 64 + fd) := by
  constructor
  · rcases fd with m | m
    · unfold fdAccessInBounds
      rw [fdWordIndex_ofNat]
      unfold fdSetWords FD_SETSIZE FD_BITS
      simp only [Int.ofNat_eq_natCast, Int.negSucc_eq]
      omega
    · unfold fdAccessInBounds
      rw [fdWordIndex_negSucc]
      unfold fdSetWords FD_SETSIZE FD_BITS
      simp only [Int.ofNat_eq_natCast, Int.negSucc_eq]
      omega
  · intro hlo hhi
    rcases fd with m | m
    · exfalso
      simp only [Int.ofNat_eq_natCast] at hhi
      omega
    · constructor
      · rw [fdWordIndex_negSucc]
        simp only [Int.ofNat_eq_natCast, Int.negSucc_eq] at hlo ⊢
        omega
      · unfold fdBitShift FD_BITS
        rw [show ((2 : Int) ^ 64) = 18446744073709551616 by norm_num]
        omega

/-- Witness for C10 at `fd = -1`: the access is in bounds and aliases bit
63 of word 0. -/
theorem claim_c10_witness :
    (fdAccessInBounds (-1) ↔ ((-64 : Int) < -1 ∧ (-1 : Int) < 1024)) ∧
    fdWordIndex (-1) = 0 ∧ (fdBitShift (-1) : Int) = 64 + (-1) :=
  ⟨(claim_c10 (-1)).1,
   ((claim_c10 (-1)).2 (by decide) (by decide)).1,
   ((claim_c10 (-1)).2 (by decide) (by decide)).2⟩

/-- Counterexample to C10 as stated: `fd = -1` is negative, yet the
computed word index is 0, inside the 16-word array — no out-of-range
access occurs. -/
theorem claim_c10_counterexample :
    ((-1 : Int) < 0) ∧ fdAccessInBounds (-1) ∧ fdWordIndex (-1) = 0 :=
  ⟨by decide, by decide, by decide⟩
